import Mathlib

/-!
Verification of the JNI bridge in
`src/jni/com_android_server_ServiceManagerWrapper.cpp`.

The artifact is a single entry point,
`Java_com_android_server_wifi_mainline_1supplicant_ServiceManagerWrapper_nativeWaitForService__Ljava_lang_String_2`,
whose body (lines 32 and 33 of the source file) is

    const char* serviceName = env->GetStringUTFChars(serviceNameJni, nullptr);
    return AIBinder_toJavaBinder(env, AServiceManager_waitForService(serviceName));

We embed it shallowly: the three external facilities the function calls are
modelled as fixed functions gathered in a `Platform` record, and the embedded
entry point returns both the value handed back to the managed caller and a
trace recording, in order, every call the body makes into the JNI environment
and the platform.  A second embedding over a divergence-aware platform
captures the fact that the lookup facility may block forever.  Finally, a
directory-state instantiation of the platform, modelled from the spec,
settles the claims about already-registered services and handle round trips.
-/

namespace ServiceManagerWrapper

/-- Bytes of a native C string: the modified-UTF-8 buffer that the JNI call
`GetStringUTFChars` hands out for a Java string. -/
abbrev CString := List Nat

/-- A low-level binder handle (`AIBinder*`); distinct values stand for
distinct service endpoints.  An `Option AIBinder` is a possibly-null
`AIBinder*` pointer. -/
abbrev AIBinder := Nat

/-- A managed-runtime reference (`jobject`) wrapping a low-level binder
handle; an `Option JObject` is a possibly-null `jobject`, with `none` the
managed null reference. -/
structure JObject where
  binder : AIBinder
  deriving DecidableEq, Repr

/-- One call out of the bridge into the JNI environment or into the platform,
recorded with its argument and result.  The vocabulary also has constructors
for calls the source does NOT make (releasing the borrowed buffer, raising a
managed error, clearing a pending error, writing a log line), so that their
absence from a trace is a meaningful statement about the code. -/
inductive Event where
  | getStringUTFChars (s : String) (result : Option CString)
  | releaseStringUTFChars (s : String)
  | waitForService (arg : Option CString) (result : Option AIBinder)
  | toJavaBinder (arg : Option AIBinder) (result : Option JObject)
  | throwNew (code : Nat)
  | exceptionClear
  | logWrite (msg : List Nat)
  deriving DecidableEq, Repr

/-- The external facilities the bridge calls, as fixed functions.

* `getStringUTFChars` models `env->GetStringUTFChars(s, nullptr)`: the
  modified-UTF-8 bytes of the string, or `none` when the JNI call fails and
  returns a null buffer (e.g. on allocation failure).
* `waitForService` models `AServiceManager_waitForService`: its argument is
  the (possibly null) C string pointer it receives, its result the (possibly
  null) `AIBinder*`.
* `toJavaBinder` models `AIBinder_toJavaBinder(env, b)`: from a possibly-null
  low-level handle to a possibly-null managed reference. -/
structure Platform where
  getStringUTFChars : String → Option CString
  waitForService : Option CString → Option AIBinder
  toJavaBinder : Option AIBinder → Option JObject

/-- Shallow embedding of the entry point
`Java_com_android_server_wifi_mainline_1supplicant_ServiceManagerWrapper_nativeWaitForService__Ljava_lang_String_2`
(src/jni/com_android_server_ServiceManagerWrapper.cpp, lines 25 to 35):

    const char* serviceName = env->GetStringUTFChars(serviceNameJni, nullptr);
    return AIBinder_toJavaBinder(env, AServiceManager_waitForService(serviceName));

The first component is the `jobject` returned to the managed caller (`none`
is the managed null reference); the second component records, in order, every
call the body makes.  The `serviceNameJni` argument is a non-null `jstring`
(a null reference is not representable here). -/
def nativeWaitForService (p : Platform) (serviceNameJni : String) :
    Option JObject × List Event :=
  let serviceName : Option CString := p.getStringUTFChars serviceNameJni
  let binder : Option AIBinder := p.waitForService serviceName
  let result : Option JObject := p.toJavaBinder binder
  (result,
    [Event.getStringUTFChars serviceNameJni serviceName,
     Event.waitForService serviceName binder,
     Event.toJavaBinder binder result])

/-- Recognizes a `GetStringUTFChars` call in a trace. -/
def isGetEvent : Event → Bool
  | Event.getStringUTFChars _ _ => true
  | _ => false

/-- Recognizes a `ReleaseStringUTFChars` call in a trace. -/
def isReleaseEvent : Event → Bool
  | Event.releaseStringUTFChars _ => true
  | _ => false

/-- Recognizes an `AServiceManager_waitForService` call in a trace. -/
def isWaitEvent : Event → Bool
  | Event.waitForService _ _ => true
  | _ => false

/-- Recognizes an `AIBinder_toJavaBinder` call in a trace. -/
def isToJavaEvent : Event → Bool
  | Event.toJavaBinder _ _ => true
  | _ => false

/-- Recognizes a raised managed error (`ThrowNew`) in a trace. -/
def isThrowEvent : Event → Bool
  | Event.throwNew _ => true
  | _ => false

/-- Recognizes a cleared pending error (`ExceptionClear`) in a trace. -/
def isExceptionClearEvent : Event → Bool
  | Event.exceptionClear => true
  | _ => false

/-- Recognizes a log write in a trace. -/
def isLogEvent : Event → Bool
  | Event.logWrite _ => true
  | _ => false

/-- Number of events of a given kind in a trace. -/
def countEvents (f : Event → Bool) (t : List Event) : Nat :=
  t.countP f

/-- The arguments of the `AServiceManager_waitForService` calls of a trace,
in order. -/
def waitArgs : List Event → List (Option CString)
  | [] => []
  | Event.waitForService a _ :: es => a :: waitArgs es
  | _ :: es => waitArgs es

/-- The external facilities in a divergence-aware semantics: the result of
`waitForService` is wrapped in one more `Option`, where the outer `none`
means the platform wait primitive never returns (blocks forever). -/
structure PlatformD where
  getStringUTFChars : String → Option CString
  waitForService : Option CString → Option (Option AIBinder)
  toJavaBinder : Option AIBinder → Option JObject

/-- The same entry point in the divergence-aware semantics.  The C body does
nothing between the wait call and the return except pass the wait result to
the conversion facility, so the embedded call diverges (outer `none`) exactly
when the platform wait diverges, and otherwise returns the converted
result. -/
def nativeWaitForServiceD (p : PlatformD) (serviceNameJni : String) :
    Option (Option JObject) :=
  let serviceName : Option CString := p.getStringUTFChars serviceNameJni
  match p.waitForService serviceName with
  | none => none
  | some binder => some (p.toJavaBinder binder)

/-- A platform service directory state: the current name-to-handle
registrations. -/
abbrev Directory := List (CString × AIBinder)

/-- The handle registered under a name in the directory, if any. -/
def lookupService (d : Directory) (n : CString) : Option AIBinder :=
  match d.find? (fun e => e.1 == n) with
  | none => none
  | some e => some e.2

/-- Modelled from the spec: `AServiceManager_waitForService` is platform
code, not part of this repository.  Per the spec, for a name already
registered in the service directory at call time the blocking lookup
resolves immediately to the handle registered under that exact name.  A null
or unregistered name yields no handle here, standing in for the absent or
blocking outcomes the spec delegates to the platform. -/
def AServiceManager_waitForService (d : Directory) (serviceName : Option CString) :
    Option AIBinder :=
  match serviceName with
  | none => none
  | some n => lookupService d n

/-- Modelled from the spec: `AIBinder_toJavaBinder` is platform code, not
part of this repository.  Per the spec it converts a low-level handle into
the managed-runtime representation of the same endpoint, and the null handle
into the managed null reference. -/
def AIBinder_toJavaBinder (b : Option AIBinder) : Option JObject :=
  b.map JObject.mk

/-- Modelled from the spec: `AIBinder_fromJavaBinder` is platform code, not
part of this repository: the inverse conversion, from a managed reference
back to the low-level handle it wraps. -/
def AIBinder_fromJavaBinder (j : Option JObject) : Option AIBinder :=
  j.map JObject.binder

/-- The abstract platform instantiated at directory state `d`, with decoder
`utf8` standing for `GetStringUTFChars`. -/
def dirPlatform (utf8 : String → Option CString) (d : Directory) : Platform :=
  { getStringUTFChars := utf8
    waitForService := AServiceManager_waitForService d
    toJavaBinder := AIBinder_toJavaBinder }

/-- A concrete decoder for evaluation: every string decodes to the bytes
`[3]`. -/
def demoDecode : String → Option CString :=
  fun _ => some [3]

/-- A concrete directory for evaluation: handle `9` is registered under the
byte name `[3]`. -/
def demoDir : Directory := [([3], 9)]

/-- A concrete platform for evaluation, built from `demoDecode` and
`demoDir`. -/
def pReg : Platform := dirPlatform demoDecode demoDir

/-- A concrete platform for evaluation in which the lookup yields no
handle. -/
def pAbsent : Platform :=
  { getStringUTFChars := fun _ => some [1]
    waitForService := fun _ => none
    toJavaBinder := AIBinder_toJavaBinder }

/-- A concrete platform for evaluation in which decoding the string fails
and returns the null buffer. -/
def pFailDecode : Platform :=
  { getStringUTFChars := fun _ => none
    waitForService := fun _ => none
    toJavaBinder := AIBinder_toJavaBinder }

/-- C1: for every (non-null) service name string, the bridge entry point
returns exactly the platform conversion facility applied to the platform
blocking lookup applied to the UTF-8 decoding of the string, and the body
makes each of the three calls exactly once — no retry, no extra
transformation and no wrapping of its own. -/
theorem bridge_returns_exact_composition (p : Platform) (s : String) :
    (nativeWaitForService p s).1
      = p.toJavaBinder (p.waitForService (p.getStringUTFChars s)) ∧
    countEvents isGetEvent (nativeWaitForService p s).2 = 1 ∧
    countEvents isWaitEvent (nativeWaitForService p s).2 = 1 ∧
    countEvents isToJavaEvent (nativeWaitForService p s).2 = 1 :=
  ⟨rfl, rfl, rfl, rfl⟩

/-- C2: when the platform lookup yields no handle and the platform conversion
maps the null handle to the managed null (the contract the spec states for
the conversion facility), the bridge returns the managed null reference, and
it raises no error of its own: its trace has no raised managed error and no
cleared pending error, so the absence is propagated as an absence value. -/
theorem null_handle_returns_null (p : Platform) (s : String)
    (hconv : p.toJavaBinder none = none)
    (hwait : p.waitForService (p.getStringUTFChars s) = none) :
    (nativeWaitForService p s).1 = none ∧
    countEvents isThrowEvent (nativeWaitForService p s).2 = 0 ∧
    countEvents isExceptionClearEvent (nativeWaitForService p s).2 = 0 := by
  refine ⟨?_, rfl, rfl⟩
  show p.toJavaBinder (p.waitForService (p.getStringUTFChars s)) = none
  rw [hwait, hconv]

/-- Witness for C2 at a concrete platform in which the lookup yields no
handle. -/
theorem null_handle_returns_null_witness :
    pAbsent.toJavaBinder none = none ∧
    pAbsent.waitForService (pAbsent.getStringUTFChars "wifi") = none ∧
    ((nativeWaitForService pAbsent "wifi").1 = none ∧
     countEvents isThrowEvent (nativeWaitForService pAbsent "wifi").2 = 0 ∧
     countEvents isExceptionClearEvent (nativeWaitForService pAbsent "wifi").2 = 0) :=
  ⟨rfl, rfl, null_handle_returns_null pAbsent "wifi" rfl rfl⟩

/-- C3: evaluation of the code at the failing input: on the concrete call
with service name "wifi_mainline_supplicant" the bridge obtains the UTF
buffer from the managed runtime exactly once and never releases it — its
trace holds one `GetStringUTFChars` call and zero `ReleaseStringUTFChars`
calls — so the borrowed buffer is not returned to the runtime before the
bridge returns. -/
theorem borrowed_buffer_never_released :
    countEvents isGetEvent
      (nativeWaitForService pReg "wifi_mainline_supplicant").2 = 1 ∧
    countEvents isReleaseEvent
      (nativeWaitForService pReg "wifi_mainline_supplicant").2 = 0 :=
  ⟨rfl, rfl⟩

/-- C4: errors propagate unmodified: the value the managed caller observes is
exactly the one the platform conversion facility produced on the lookup
result, and the trace shows no local error handling at all — no raised
managed error, no cleared pending error, no log write, and a single lookup
call (so no retry either). -/
theorem errors_propagate_unmodified (p : Platform) (s : String) :
    (nativeWaitForService p s).1
      = p.toJavaBinder (p.waitForService (p.getStringUTFChars s)) ∧
    countEvents isThrowEvent (nativeWaitForService p s).2 = 0 ∧
    countEvents isExceptionClearEvent (nativeWaitForService p s).2 = 0 ∧
    countEvents isLogEvent (nativeWaitForService p s).2 = 0 ∧
    countEvents isWaitEvent (nativeWaitForService p s).2 = 1 :=
  ⟨rfl, rfl, rfl, rfl, rfl⟩

/-- C5: the bridge applies no timeout or cancellation of its own: in the
divergence-aware semantics the embedded call is exactly the platform wait
result passed through the conversion facility, so it diverges exactly when
the platform wait primitive diverges and never returns before it. -/
theorem no_local_timeout (p : PlatformD) (s : String) :
    nativeWaitForServiceD p s
      = (p.waitForService (p.getStringUTFChars s)).map p.toJavaBinder ∧
    (nativeWaitForServiceD p s = none
      ↔ p.waitForService (p.getStringUTFChars s) = none) := by
  constructor
  · simp only [nativeWaitForServiceD]
    cases p.waitForService (p.getStringUTFChars s) <;> rfl
  · simp only [nativeWaitForServiceD]
    cases p.waitForService (p.getStringUTFChars s) <;> simp

/-- C6: a name already registered in the directory at call time resolves to a
handle identifying exactly that service: the bridge returns the managed
reference wrapping the registered low-level handle, and converting that
reference back yields that exact handle. -/
theorem registered_name_yields_that_service
    (utf8 : String → Option CString) (d : Directory) (s : String)
    (n : CString) (b : AIBinder)
    (hdec : utf8 s = some n) (hreg : lookupService d n = some b) :
    (nativeWaitForService (dirPlatform utf8 d) s).1 = some (JObject.mk b) ∧
    AIBinder_fromJavaBinder (nativeWaitForService (dirPlatform utf8 d) s).1
      = some b := by
  have hres : (nativeWaitForService (dirPlatform utf8 d) s).1
      = some (JObject.mk b) := by
    show AIBinder_toJavaBinder (AServiceManager_waitForService d (utf8 s))
      = some (JObject.mk b)
    rw [hdec]
    show AIBinder_toJavaBinder (lookupService d n) = some (JObject.mk b)
    rw [hreg]
    rfl
  refine ⟨hres, ?_⟩
  rw [hres]
  rfl

/-- Witness for C6 at the concrete decoder and directory: handle 9 is
registered under the byte name [3]. -/
theorem registered_name_yields_that_service_witness :
    demoDecode "wifi" = some [3] ∧
    lookupService demoDir [3] = some 9 ∧
    ((nativeWaitForService (dirPlatform demoDecode demoDir) "wifi").1
        = some (JObject.mk 9) ∧
     AIBinder_fromJavaBinder
        (nativeWaitForService (dirPlatform demoDecode demoDir) "wifi").1
        = some 9) :=
  ⟨rfl, rfl,
   registered_name_yields_that_service demoDecode demoDir "wifi" [3] 9 rfl rfl⟩

/-- C7: round trip: whenever the bridge returns a non-null managed reference,
feeding that reference into the inverse platform conversion yields exactly
the low-level reference the platform lookup produced for this call. -/
theorem returned_handle_round_trips
    (utf8 : String → Option CString) (d : Directory) (s : String) (j : JObject)
    (h : (nativeWaitForService (dirPlatform utf8 d) s).1 = some j) :
    AIBinder_fromJavaBinder (some j)
      = AServiceManager_waitForService d (utf8 s) := by
  have h2 : AIBinder_toJavaBinder (AServiceManager_waitForService d (utf8 s))
      = some j := h
  cases hw : AServiceManager_waitForService d (utf8 s) with
  | none =>
      rw [hw] at h2
      exact Option.noConfusion h2
  | some b =>
      rw [hw] at h2
      have h3 : some (JObject.mk b) = some j := h2
      injection h3 with h4
      rw [← h4]
      rfl

/-- Witness for C7 at the concrete decoder and directory. -/
theorem returned_handle_round_trips_witness :
    (nativeWaitForService (dirPlatform demoDecode demoDir) "wifi").1
      = some (JObject.mk 9) ∧
    AIBinder_fromJavaBinder (some (JObject.mk 9))
      = AServiceManager_waitForService demoDir (demoDecode "wifi") :=
  ⟨rfl,
   returned_handle_round_trips demoDecode demoDir "wifi" (JObject.mk 9) rfl⟩

/-- C8: no validation of the service name: for every string the caller
supplies — the empty string included, since the statement is universal — the
exact decoding result is what the single platform lookup call receives,
unchanged: no check, rejection or normalization by the bridge itself. -/
theorem name_forwarded_unchanged (p : Platform) (s : String) :
    waitArgs (nativeWaitForService p s).2 = [p.getStringUTFChars s] :=
  rfl

/-- C9: no null guard at the decoding boundary: when the decoding call fails
and returns the null buffer, the bridge does not return early — it still
invokes the platform lookup, and the single lookup call receives the null
name pointer. -/
theorem decode_failure_still_calls_lookup (p : Platform) (s : String)
    (h : p.getStringUTFChars s = none) :
    waitArgs (nativeWaitForService p s).2 = [none] ∧
    countEvents isWaitEvent (nativeWaitForService p s).2 = 1 := by
  refine ⟨?_, rfl⟩
  show [p.getStringUTFChars s] = [none]
  rw [h]

/-- Witness for C9 at a concrete platform whose decoding call fails. -/
theorem decode_failure_still_calls_lookup_witness :
    pFailDecode.getStringUTFChars "wifi" = none ∧
    (waitArgs (nativeWaitForService pFailDecode "wifi").2 = [none] ∧
     countEvents isWaitEvent (nativeWaitForService pFailDecode "wifi").2 = 1) :=
  ⟨rfl, decode_failure_still_calls_lookup pFailDecode "wifi" rfl⟩

/-- C10: determinism relative to the platform: with the decoding, lookup and
conversion facilities fixed functions (of the directory state), two bridge
calls with equal service-name strings against equal facilities return equal
results and equal traces — the output depends only on the input string and
the platform facilities, the bridge holding no state of its own. -/
theorem bridge_deterministic (p q : Platform) (s t : String)
    (hs : s = t)
    (hg : p.getStringUTFChars = q.getStringUTFChars)
    (hw : p.waitForService = q.waitForService)
    (hj : p.toJavaBinder = q.toJavaBinder) :
    nativeWaitForService p s = nativeWaitForService q t := by
  subst hs
  simp only [nativeWaitForService, hg, hw, hj]

/-- Witness for C10 at a concrete platform and string. -/
theorem bridge_deterministic_witness :
    ("wifi" : String) = "wifi" ∧
    pReg.getStringUTFChars = pReg.getStringUTFChars ∧
    pReg.waitForService = pReg.waitForService ∧
    pReg.toJavaBinder = pReg.toJavaBinder ∧
    nativeWaitForService pReg "wifi" = nativeWaitForService pReg "wifi" :=
  ⟨rfl, rfl, rfl, rfl,
   bridge_deterministic pReg pReg "wifi" "wifi" rfl rfl rfl rfl⟩

end ServiceManagerWrapper
